import Mathlib

/-!
Verification development for the kubespray remote-diagnostic engine.

The Go sources embedded here are `pkg/preflight/checker.go` (preflight
checks) and the health monitor package (cluster health checks).  Remote
I/O (SSH connection attempts and remote command execution) is represented
by an explicit oracle `SSHEnv`: `connOk host` tells whether the SSH dial
to `host` succeeds, and `runCmd host cmd` returns `some output` when the
remote command succeeds and `none` when it returns an error.  Everything
downstream of that oracle is a direct translation of the Go code.
-/

namespace Kubespray

/-! ## Go string primitives, translated from the Go standard library
    behaviour actually relied on by the code (`strings.TrimSpace`,
    `strings.TrimSuffix`, `strings.Contains`, `strings.Fields`,
    `strings.HasPrefix`, `strings.Split` on a newline separator,
    `strconv.Atoi` with the error ignored, and the one regular
    expression `MemTotal:\s+(\d+)\s+kB`). -/

/-- Whitespace as used by `strings.TrimSpace` / `strings.Fields`
(`unicode.IsSpace` restricted to ASCII, which is all the code meets). -/
def isGoSpace (c : Char) : Bool :=
  c == ' ' || c == '\t' || c == '\n' || c == Char.ofNat 11 ||
    c == Char.ofNat 12 || c == '\r'

/-- Whitespace as matched by the regexp class `\s` in Go RE2. -/
def isRegexSpace (c : Char) : Bool :=
  c == ' ' || c == '\t' || c == '\n' || c == Char.ofNat 12 || c == '\r'

def isDigitCh (c : Char) : Bool :=
  '0' ≤ c && c ≤ '9'

/-- `strings.TrimSpace` on the character list of a Go string. -/
def goTrimSpace (l : List Char) : List Char :=
  ((l.dropWhile isGoSpace).reverse.dropWhile isGoSpace).reverse

/-- Does `l` start with `p`? (`strings.HasPrefix`). -/
def startsWithL : List Char → List Char → Bool
  | _, [] => true
  | [], _ :: _ => false
  | a :: as, b :: bs => a == b && startsWithL as bs

/-- `strings.TrimSuffix l suf`: drop `suf` from the end when present. -/
def goTrimSuffix (l suf : List Char) : List Char :=
  if startsWithL l.reverse suf.reverse then l.take (l.length - suf.length) else l

/-- `strings.Contains hay needle` (substring containment). -/
def containsSub (needle : List Char) : List Char → Bool
  | [] => startsWithL [] needle
  | c :: rest => startsWithL (c :: rest) needle || containsSub needle rest

/-- Digit-run value, used by the `strconv.Atoi` model. -/
def natOfDigits (l : List Char) : Nat :=
  l.foldl (fun a c => a * 10 + (c.toNat - 48)) 0

/-- `strconv.Atoi`: optional sign, then one or more digits spanning the
whole string; `none` models the error return. -/
def atoiOpt (l : List Char) : Option Int :=
  let core : List Char → Option Nat := fun ds =>
    if ds ≠ [] && ds.all isDigitCh then some (natOfDigits ds) else none
  match l with
  | '+' :: rest => (core rest).map Int.ofNat
  | '-' :: rest => (core rest).map fun n => -(n : Int)
  | _ => (core l).map Int.ofNat

/-- The code always discards the `Atoi` error, leaving the zero value
(`cpu, _ := strconv.Atoi(...)`). -/
def goAtoi (l : List Char) : Int :=
  (atoiOpt l).getD 0

/-- `strings.Fields` accumulator: split on runs of whitespace. -/
def goFieldsAux : List Char → List Char → List (List Char)
  | [], cur => if cur.isEmpty then [] else [cur.reverse]
  | c :: rest, cur =>
    if isGoSpace c then
      if cur.isEmpty then goFieldsAux rest []
      else cur.reverse :: goFieldsAux rest []
    else goFieldsAux rest (c :: cur)

/-- `strings.Fields`. -/
def goFields (l : List Char) : List (List Char) :=
  goFieldsAux l []

/-- `strings.Split(s, "\n")` accumulator. -/
def splitNLAux : List Char → List Char → List (List Char)
  | [], cur => [cur.reverse]
  | c :: rest, cur =>
    if c == '\n' then cur.reverse :: splitNLAux rest []
    else splitNLAux rest (c :: cur)

/-- `strings.Split(s, "\n")`. -/
def splitNL (l : List Char) : List (List Char) :=
  splitNLAux l []

/-- `strings.Join` with a separator. -/
def goJoin (sep : String) : List String → String
  | [] => ""
  | [s] => s
  | s :: rest => s ++ sep ++ goJoin sep rest

/-- Attempt the regexp `MemTotal:\s+(\d+)\s+kB` anchored at the head of
`l`; returns the captured digit run.  The adjacent token classes of the
pattern are disjoint, so greedy maximal munch is exact RE2 behaviour. -/
def matchMemAt (l : List Char) : Option (List Char) :=
  if startsWithL l "MemTotal:".data then
    let r1 := l.drop 9
    if (r1.takeWhile isRegexSpace).isEmpty then none
    else
      let r2 := r1.dropWhile isRegexSpace
      let ds := r2.takeWhile isDigitCh
      if ds.isEmpty then none
      else
        let r3 := r2.dropWhile isDigitCh
        if (r3.takeWhile isRegexSpace).isEmpty then none
        else
          let r4 := r3.dropWhile isRegexSpace
          if startsWithL r4 "kB".data then some ds else none
  else none

/-- `regexp.FindStringSubmatch` for `MemTotal:\s+(\d+)\s+kB`: leftmost
match wins; returns the first capture group. -/
def findMemTotal : List Char → Option (List Char)
  | [] => none
  | c :: rest =>
    match matchMemAt (c :: rest) with
    | some ds => some ds
    | none => findMemTotal rest

/-! ## Remote I/O oracle

The preflight checker and the health monitor both reach remote hosts
through `sshConnect` (SSH dial) and `runSSHCommand` / `runCommand`
(`session.CombinedOutput`).  Those effects are captured by an oracle:
`connOk host` is whether the dial succeeds, and `runCmd host cmd` is
`some output` exactly when the remote command returns without error.
The textual detail interpolated from the Go `error` values (`%v`) is not
observable here, so connection-failure messages keep only their fixed
part. -/

structure SSHEnv where
  connOk : String → Bool
  runCmd : String → String → Option String

/-! ## pkg/preflight/checker.go -/

/-- `CheckResult` from checker.go (the open `Details` map carries only
redundant measurements and is not modelled). -/
structure CheckResult where
  Name : String
  Passed : Bool
  Message : String
deriving DecidableEq, Repr

def minCPU : Int := 2
def minMemoryGB : Int := 2
def minDiskGB : Int := 20

def sysReqName (host : String) : String :=
  s!"System Requirements - {host}"

/-- The remote command strings issued by `CheckSystemRequirements`. -/
def memCmd : String := "cat /proc/meminfo | grep MemTotal"

def diskCmd : String := "df -BG / | tail -1 | awk \x27\x7bprint $4\x7d\x27"

/-- Per-host body of `CheckSSHConnectivity` (checker.go lines 71-88). -/
def sshResult (env : SSHEnv) (host : String) : CheckResult :=
  if env.connOk host = false then
    { Name := s!"SSH Connectivity - {host}", Passed := false,
      Message := "Failed to connect" }
  else
    { Name := s!"SSH Connectivity - {host}", Passed := true,
      Message := "SSH connection successful" }

/-- `CheckSSHConnectivity` (checker.go lines 68-92). -/
def CheckSSHConnectivity (env : SSHEnv) (hosts : List String) : List CheckResult :=
  hosts.map (sshResult env)

/-- CPU step of `CheckSystemRequirements` (checker.go lines 118-128):
`some r` is the failing result that makes the loop `continue`; `none`
means fall through to the memory step (also when `nproc` itself
errored, which the code silently skips). -/
def cpuGate (env : SSHEnv) (host : String) : Option CheckResult :=
  match env.runCmd host "nproc" with
  | none => none
  | some out =>
    let cpu : Int := goAtoi (goTrimSpace out.data)
    if cpu < minCPU then
      some { Name := sysReqName host, Passed := false,
             Message := s!"Insufficient CPU cores: {cpu} (minimum: {minCPU})" }
    else none

/-- Memory step (checker.go lines 131-146): when the `MemTotal` pattern
is absent from the output the step is silently skipped, exactly as in
the source. -/
def memGate (env : SSHEnv) (host : String) : Option CheckResult :=
  match env.runCmd host memCmd with
  | none => none
  | some out =>
    match findMemTotal out.data with
    | none => none
    | some ds =>
      let memKB : Int := goAtoi ds
      let memGB : Int := memKB / 1024 / 1024
      if memGB < minMemoryGB then
        some { Name := sysReqName host, Passed := false,
               Message := s!"Insufficient memory: {memGB}GB (minimum: {minMemoryGB}GB)" }
      else none

/-- Disk step (checker.go lines 149-160). -/
def diskGate (env : SSHEnv) (host : String) : Option CheckResult :=
  match env.runCmd host diskCmd with
  | none => none
  | some out =>
    let diskGB : Int := goAtoi (goTrimSpace (goTrimSuffix out.data "G".data))
    if diskGB < minDiskGB then
      some { Name := sysReqName host, Passed := false,
             Message := s!"Insufficient disk space: {diskGB}GB (minimum: {minDiskGB}GB)" }
    else none

/-- Per-host body of `CheckSystemRequirements` (checker.go lines
102-164): connection failure gives one failing result; otherwise the
first failing gate short-circuits, and if none fires the host passes. -/
def checkHostRequirements (env : SSHEnv) (host : String) : CheckResult :=
  if env.connOk host = false then
    { Name := sysReqName host, Passed := false, Message := "Cannot connect" }
  else
    match cpuGate env host with
    | some r => r
    | none =>
      match memGate env host with
      | some r => r
      | none =>
        match diskGate env host with
        | some r => r
        | none =>
          { Name := sysReqName host, Passed := true,
            Message := "System requirements met" }

/-- `CheckSystemRequirements` (checker.go lines 95-168): every branch of
the loop body appends exactly one result per host. -/
def CheckSystemRequirements (env : SSHEnv) (hosts : List String) : List CheckResult :=
  hosts.map (checkHostRequirements env)

/-- Per-pair body of `CheckNetworkConnectivity` (checker.go lines
184-208). -/
def pairCheck (env : SSHEnv) (src dst : String) : CheckResult :=
  let nm := s!"Network Connectivity - {src} to {dst}"
  if env.connOk src = false then
    { Name := nm, Passed := false, Message := "Cannot connect to source" }
  else
    match env.runCmd src s!"ping -c 3 -W 2 {dst}" with
    | none => { Name := nm, Passed := false, Message := "Ping failed between nodes" }
    | some out =>
      if containsSub "3 received".data out.data then
        { Name := nm, Passed := true, Message := "Network connectivity verified" }
      else
        { Name := nm, Passed := false, Message := "Ping failed between nodes" }

/-- `CheckNetworkConnectivity` (checker.go lines 171-213): early empty
return for fewer than two hosts, then the double loop over roster
indices with `if i >= j { continue }`. -/
def CheckNetworkConnectivity (env : SSHEnv) (hosts : List String) : List CheckResult :=
  if hosts.length < 2 then []
  else
    (List.range hosts.length).flatMap fun i =>
      (List.range hosts.length).flatMap fun j =>
        if i ≥ j then []
        else [pairCheck env (hosts.getD i "") (hosts.getD j "")]

def supportedVersions : List String := ["v1.28", "v1.29", "v1.30"]

/-- `CheckKubernetesVersion` (checker.go lines 216-229).  The Go method
takes no version argument: the result is a constant. -/
def CheckKubernetesVersion : CheckResult :=
  { Name := "Kubernetes Version Compatibility", Passed := true,
    Message := "Supported versions: " ++ goJoin ", " supportedVersions }

/-- `RunAll` (checker.go lines 45-65): concatenation of the four check
groups, the version group contributing the single constant result. -/
def RunAll (env : SSHEnv) (hosts : List String) : List CheckResult :=
  CheckSSHConnectivity env hosts ++ CheckSystemRequirements env hosts ++
    CheckNetworkConnectivity env hosts ++ [CheckKubernetesVersion]

/-! ## Health monitor package (cluster health checks) -/

/-- `ComponentStatus` (same shape as `CheckResult`, post-deployment
scope; the `Details` map is again not modelled). -/
structure ComponentStatus where
  Name : String
  Healthy : Bool
  Message : String
deriving DecidableEq, Repr

/-- `ClusterHealth`.  The wall-clock `Timestamp` field is not modelled
(real time); no claim concerns it. -/
structure ClusterHealth where
  Healthy : Bool
  Components : List ComponentStatus
  NodeCount : Nat
  ReadyNodes : Nat
deriving DecidableEq, Repr

def apiServerCmd : String :=
  "sudo systemctl is-active kube-apiserver || kubectl get --raw /healthz"

def etcdCmd : String :=
  "sudo ETCDCTL_API=3 etcdctl endpoint health 2>/dev/null || echo \x27etcd-check-skipped\x27"

def kubeletCmd : String := "sudo systemctl is-active kubelet"

def nodesCmd : String :=
  "kubectl get nodes --no-headers 2>/dev/null || echo \x27kubectl-not-available\x27"

/-- `checkAPIServer` (health monitor lines 87-123), probing only the
first master. -/
def checkAPIServer (env : SSHEnv) (masters : List String) : ComponentStatus :=
  match masters with
  | [] =>
    { Name := "Kubernetes API Server", Healthy := false,
      Message := "No master nodes configured" }
  | masterHost :: _ =>
    if env.connOk masterHost = false then
      { Name := "Kubernetes API Server", Healthy := false,
        Message := "Cannot connect to master" }
    else
      match env.runCmd masterHost apiServerCmd with
      | none =>
        { Name := "Kubernetes API Server", Healthy := false,
          Message := "API server is not responding" }
      | some out =>
        if containsSub "ok".data out.data || containsSub "active".data out.data then
          { Name := "Kubernetes API Server", Healthy := true,
            Message := "API server is healthy" }
        else
          { Name := "Kubernetes API Server", Healthy := false,
            Message := "API server status unknown" }

/-- `checkEtcd` (health monitor lines 126-161): an error or an
`unhealthy` substring fails; a `healthy` substring passes; anything
else is the skipped-but-passing caveat result. -/
def checkEtcd (env : SSHEnv) (masters : List String) : ComponentStatus :=
  match masters with
  | [] =>
    { Name := "etcd", Healthy := false, Message := "No etcd nodes configured" }
  | masterHost :: _ =>
    if env.connOk masterHost = false then
      { Name := "etcd", Healthy := false, Message := "Cannot connect to etcd node" }
    else
      match env.runCmd masterHost etcdCmd with
      | none =>
        { Name := "etcd", Healthy := false, Message := "etcd cluster is unhealthy" }
      | some out =>
        if containsSub "unhealthy".data out.data then
          { Name := "etcd", Healthy := false, Message := "etcd cluster is unhealthy" }
        else if containsSub "healthy".data out.data then
          { Name := "etcd", Healthy := true, Message := "etcd cluster is healthy" }
        else
          { Name := "etcd", Healthy := true,
            Message := "etcd status check skipped (may not be running on this node)" }

/-- Per-host body of `checkKubelet` (health monitor lines 168-192). -/
def kubeletStatus (env : SSHEnv) (host : String) : ComponentStatus :=
  let nm := s!"kubelet - {host}"
  if env.connOk host = false then
    { Name := nm, Healthy := false, Message := "Cannot connect" }
  else
    match env.runCmd host kubeletCmd with
    | none => { Name := nm, Healthy := false, Message := "kubelet is not running" }
    | some out =>
      if containsSub "active".data out.data then
        { Name := nm, Healthy := true, Message := "kubelet is running" }
      else
        { Name := nm, Healthy := false, Message := "kubelet is not running" }

/-- `checkKubelet` (health monitor lines 164-196): one status per host
of `masters ++ nodes`, each computed independently. -/
def checkKubelet (env : SSHEnv) (masters nodes : List String) : List ComponentStatus :=
  (masters ++ nodes).map (kubeletStatus env)

/-- One line of the node listing (health monitor lines 232-257): empty
lines and lines with fewer than two whitespace-delimited fields
contribute nothing; otherwise readiness is
`strings.Contains(fields[1], "Ready")`. -/
def parseNodeLine (line : List Char) : Option ComponentStatus :=
  if line.isEmpty then none
  else
    let fields := goFields line
    if fields.length < 2 then none
    else
      let nodeName := fields.getD 0 []
      let nodeStat := fields.getD 1 []
      if containsSub "Ready".data nodeStat then
        some { Name := "Node - " ++ String.mk nodeName, Healthy := true,
               Message := "Node is Ready" }
      else
        some { Name := "Node - " ++ String.mk nodeName, Healthy := false,
               Message := "Node status: " ++ String.mk nodeStat }

/-- `checkNodeStatus` (health monitor lines 199-261). -/
def checkNodeStatus (env : SSHEnv) (masters : List String) : List ComponentStatus :=
  match masters with
  | [] => []
  | masterHost :: _ =>
    if env.connOk masterHost = false then
      [{ Name := "Node Status", Healthy := false,
         Message := "Cannot connect to master" }]
    else
      match env.runCmd masterHost nodesCmd with
      | none =>
        [{ Name := "Node Status", Healthy := true,
           Message := "kubectl not available - cluster may still be initializing" }]
      | some out =>
        if containsSub "kubectl-not-available".data out.data then
          [{ Name := "Node Status", Healthy := true,
             Message := "kubectl not available - cluster may still be initializing" }]
        else
          (splitNL (goTrimSpace out.data)).filterMap parseNodeLine

/-- `countReadyNodes` (health monitor lines 264-272). -/
def countReadyNodes (nodeStatuses : List ComponentStatus) : Nat :=
  (nodeStatuses.filter fun status =>
    startsWithL status.Name.data "Node - ".data && status.Healthy).length

/-- The overall-health loop of `CheckClusterHealth` (lines 75-81):
start `true`, flip to `false` at the first unhealthy component. -/
def overallHealthy : List ComponentStatus → Bool
  | [] => true
  | comp :: rest => if comp.Healthy = false then false else overallHealthy rest

/-- `CheckClusterHealth` (health monitor lines 50-84). -/
def CheckClusterHealth (env : SSHEnv) (masters nodes : List String) : ClusterHealth :=
  let nodeStatus := checkNodeStatus env masters
  let comps :=
    [checkAPIServer env masters, checkEtcd env masters] ++
      checkKubelet env masters nodes ++ nodeStatus
  { Healthy := overallHealthy comps
    Components := comps
    NodeCount := masters.length + nodes.length
    ReadyNodes := countReadyNodes nodeStatus }

/-! ## Concrete environments used by counterexamples and witnesses -/

/-- Every host reachable; the node-listing command (and every other
command) prints three node lines, one of them `NotReady`. -/
def envListing : SSHEnv :=
  { connOk := fun _ => true
    runCmd := fun _ _ => some "master-0 Ready\nnode-0 NotReady\nnode-1 Ready" }

/-- Every host reachable; every command prints two `Ready` node lines
(more nodes than the one-master roster used with it). -/
def envTwoNodes : SSHEnv :=
  { connOk := fun _ => true
    runCmd := fun _ _ => some "a Ready\nb Ready" }

/-- Reachable host whose memory-info output lacks the `MemTotal`
pattern, while CPU and disk are comfortably above the minimums. -/
def envBadMem : SSHEnv :=
  { connOk := fun _ => true
    runCmd := fun _ cmd =>
      if cmd = "nproc" then some "4"
      else if cmd = memCmd then some "memory-unavailable"
      else if cmd = diskCmd then some "50G"
      else none }

/-- Reachable host with one CPU core and ample memory and disk. -/
def envLowCPU : SSHEnv :=
  { connOk := fun _ => true
    runCmd := fun _ cmd =>
      if cmd = "nproc" then some "1"
      else if cmd = memCmd then some "MemTotal: 4194304 kB"
      else if cmd = diskCmd then some "21G"
      else none }

/-- The host named `down` refuses connections; every other host is
reachable and reports an active service. -/
def envMixed : SSHEnv :=
  { connOk := fun h => !(h == "down")
    runCmd := fun _ _ => some "active" }

/-! ## Helper lemmas -/

/-- The overall-health loop computes the conjunction of the component
flags. -/
theorem overallHealthy_false_iff (l : List ComponentStatus) :
    overallHealthy l = false ↔ ∃ c ∈ l, c.Healthy = false := by
  induction l with
  | nil => simp [overallHealthy]
  | cons comp rest ih =>
    by_cases h : comp.Healthy = false
    · simp [overallHealthy, h]
    · simp [overallHealthy, h, ih]

/-- A line the parser rejects (fewer than two fields) yields no
component. -/
theorem parseNodeLine_short (line : List Char)
    (h : (goFields line).length < 2) : parseNodeLine line = none := by
  by_cases he : line.isEmpty
  · simp [parseNodeLine, he]
  · simp [parseNodeLine, he, h]

/-- The unordered index pairs (i, j) with i < j, in the order the
double loop of `CheckNetworkConnectivity` visits them.  This is the
enumeration the spec describes; the theorems below relate the code to
it. -/
def ltPairs (n : Nat) : List (Nat × Nat) :=
  (List.range n).flatMap fun i =>
    ((List.range n).filter fun j => decide (i < j)).map fun j => (i, j)

/-- One row of the double loop: skipping `i ≥ j` is filtering to
`i < j`. -/
theorem innerRow {α : Type} (i : Nat) (g : Nat → α) (l : List Nat) :
    (l.flatMap fun j => if i ≥ j then [] else [g j]) =
      (l.filter fun j => decide (i < j)).map g := by
  induction l with
  | nil => rfl
  | cons j t ih =>
    by_cases h : i < j
    · have h1 : ¬ i ≥ j := Nat.not_le_of_lt h
      simp [h1, h, ih]
    · have h1 : i ≥ j := Nat.le_of_not_lt h
      simp [h1, h, ih]

/-- The network check is the map of the per-pair check over the
canonical i < j pair enumeration (both sides are `[]` when the roster
has fewer than two hosts). -/
theorem networkEqPairs (env : SSHEnv) (hosts : List String) :
    CheckNetworkConnectivity env hosts =
      (ltPairs hosts.length).map fun p =>
        pairCheck env (hosts.getD p.1 "") (hosts.getD p.2 "") := by
  by_cases h : hosts.length < 2
  · have h01 : hosts.length = 0 ∨ hosts.length = 1 := by omega
    rcases h01 with h0 | h1
    · simp [CheckNetworkConnectivity, h, h0, ltPairs]
    · simp [CheckNetworkConnectivity, h, h1, ltPairs]
  · simp only [CheckNetworkConnectivity, if_neg h, ltPairs, List.map_flatMap,
      List.map_map]
    refine congrArg _ (funext fun i => ?_)
    rw [innerRow]
    rfl

/-- Row length: among `j < n` exactly `n - (i + 1)` satisfy `i < j`. -/
theorem filterRangeLen (i : Nat) :
    ∀ n, (((List.range n).filter fun j => decide (i < j))).length = n - (i + 1) := by
  intro n
  induction n with
  | zero => simp
  | succ m ih =>
    rw [List.range_succ, List.filter_append, List.length_append, ih]
    by_cases h : i < m
    · simp [h]
      omega
    · simp [h]
      omega

/-- List-level sum over `range` agrees with the `Finset` sum. -/
theorem listSumRange (f : Nat → Nat) :
    ∀ n, ((List.range n).map f).sum = ∑ i ∈ Finset.range n, f i := by
  intro n
  induction n with
  | zero => rfl
  | succ m ih =>
    rw [List.range_succ, List.map_append, List.sum_append, ih,
      Finset.sum_range_succ]
    simp

/-- The pair enumeration has exactly C(n, 2) entries. -/
theorem ltPairs_length (n : Nat) : (ltPairs n).length = n * (n - 1) / 2 := by
  rw [ltPairs, List.length_flatMap]
  have h1 : ((List.range n).map fun i =>
      ((((List.range n).filter fun j => decide (i < j)).map fun j => (i, j))).length)
      = (List.range n).map fun i => n - (i + 1) := by
    refine List.map_congr_left fun i _ => ?_
    rw [List.length_map, filterRangeLen]
  rw [Function.comp_def]
  simp only [List.length_map]
  have h2 : ((List.range n).map fun i =>
      (((List.range n).filter fun j => decide (i < j))).length)
      = (List.range n).map fun i => n - (i + 1) := by
    refine List.map_congr_left fun i _ => ?_
    rw [filterRangeLen]
  rw [h2, listSumRange]
  have h3 : ∀ i ∈ Finset.range n, n - (i + 1) = n - 1 - i := by
    intro i _
    omega
  rw [Finset.sum_congr rfl h3, Finset.sum_range_reflect (fun i => i) n,
    Finset.sum_range_id]

/-- No index pair is repeated by the enumeration. -/
theorem ltPairs_nodup (n : Nat) : (ltPairs n).Nodup := by
  rw [ltPairs, List.nodup_flatMap]
  constructor
  · intro i _
    refine List.Nodup.map ?_ (List.Nodup.filter _ (List.nodup_range n))
    intro a b hab
    exact congrArg Prod.snd hab
  · refine (List.pairwise_lt_range n).imp ?_
    intro a b hab x hxa hxb
    obtain ⟨ja, _, hja⟩ := List.mem_map.mp hxa
    obtain ⟨jb, _, hjb⟩ := List.mem_map.mp hxb
    have : a = b := by
      have h1 : x.1 = a := by rw [← hja]
      have h2 : x.1 = b := by rw [← hjb]
      omega
    omega

/-- Every enumerated pair is strictly increasing: no self-pair. -/
theorem ltPairs_strict (n : Nat) :
    (ltPairs n).all (fun p => decide (p.1 < p.2)) = true := by
  rw [List.all_eq_true]
  intro p hp
  rw [ltPairs, List.mem_flatMap] at hp
  obtain ⟨i, _, hpi⟩ := hp
  obtain ⟨j, hj, hji⟩ := List.mem_map.mp hpi
  obtain ⟨-, hlt⟩ := List.mem_filter.mp hj
  subst hji
  simpa using hlt

/-! ## Claims -/

/-- Claim C1: for every roster of n hosts (and every I/O behaviour) the
pairwise network connectivity check produces exactly n(n-1)/2 results,
one per unordered index pair (i, j) with i < j in roster order; the pair
enumeration underlying the results has no self-pair and no duplicate. -/
theorem claim_c1 (env : SSHEnv) (hosts : List String) :
    (CheckNetworkConnectivity env hosts).length =
        hosts.length * (hosts.length - 1) / 2
      ∧ CheckNetworkConnectivity env hosts =
          ((ltPairs hosts.length).map fun p =>
            pairCheck env (hosts.getD p.1 "") (hosts.getD p.2 ""))
      ∧ (ltPairs hosts.length).Nodup
      ∧ (ltPairs hosts.length).all (fun p => decide (p.1 < p.2)) = true := by
  refine ⟨?_, networkEqPairs env hosts, ltPairs_nodup _, ltPairs_strict _⟩
  rw [networkEqPairs, List.length_map, ltPairs_length]

/-- Claim C2 (counterexample): the version compatibility check of the
code takes no requested-version input at all and its single result is
passing, so no input — in particular not "v1.27" — ever yields a
failing result as the claim asserts. -/
theorem claim_c2_counterexample : CheckKubernetesVersion.Passed = true := rfl

/-- Claim C2 (amended): the version check is a constant: it always
yields exactly one result, which passes and lists the supported set
{v1.28, v1.29, v1.30}; within `RunAll` the version group contributes
exactly one result. -/
theorem claim_c2 :
    CheckKubernetesVersion.Passed = true
      ∧ CheckKubernetesVersion.Message = "Supported versions: v1.28, v1.29, v1.30"
      ∧ supportedVersions = ["v1.28", "v1.29", "v1.30"]
      ∧ ∀ (env : SSHEnv) (hosts : List String),
          (RunAll env hosts).length =
            hosts.length + hosts.length +
              (CheckNetworkConnectivity env hosts).length + 1 := by
  refine ⟨rfl, rfl, rfl, ?_⟩
  intro env hosts
  simp [RunAll, CheckSSHConnectivity, CheckSystemRequirements]
  omega

/-- Claim C3 (code evaluation at the failing input): for listing output
`master-0 Ready / node-0 NotReady / node-1 Ready` the code counts 3
ready nodes, not the 2 the claim states, because readiness is the
substring test `strings.Contains(status, "Ready")` and `"NotReady"`
contains `"Ready"`; the `NotReady` node is even reported with message
`Node is Ready`. -/
theorem claim_c3_eval :
    countReadyNodes (checkNodeStatus envListing ["master"]) = 3
      ∧ (checkNodeStatus envListing ["master"])[1]? =
          some { Name := "Node - node-0", Healthy := true,
                 Message := "Node is Ready" }
      ∧ containsSub "Ready".data "NotReady".data = true := by
  refine ⟨by decide, by decide, by decide⟩

/-- Claim C4 (code evaluation at the failing input): with CPU and disk
above the minimums but a memory-info output in which the `MemTotal`
pattern does not occur, the capacity check silently skips the memory
comparison and reports the passing `System requirements met` result,
contrary to the claim that a parse failure is never reported as
passing. -/
theorem claim_c4_eval :
    (checkHostRequirements envBadMem "h").Passed = true
      ∧ (checkHostRequirements envBadMem "h").Message = "System requirements met"
      ∧ findMemTotal "memory-unavailable".data = none := by
  refine ⟨by decide, by decide, by decide⟩

/-- Claim C5: for every ClusterHealth record the health check produces,
the overall healthy flag is false iff some component has healthy=false,
and the aggregation loop is vacuously true on an empty component
list. -/
theorem claim_c5 (env : SSHEnv) (masters nodes : List String) :
    ((CheckClusterHealth env masters nodes).Healthy = false ↔
        ∃ c ∈ (CheckClusterHealth env masters nodes).Components, c.Healthy = false)
      ∧ overallHealthy [] = true := by
  exact ⟨overallHealthy_false_iff _, rfl⟩

/-- Claim C5 witness: the equivalence instantiated at a concrete
run. -/
theorem claim_c5_witness :
    ((CheckClusterHealth envTwoNodes ["m"] []).Healthy = false ↔
        ∃ c ∈ (CheckClusterHealth envTwoNodes ["m"] []).Components, c.Healthy = false)
      ∧ overallHealthy [] = true :=
  claim_c5 envTwoNodes ["m"] []

/-- Claim C6 (counterexample): ready-node count can exceed the node
count.  With roster = one master and no workers (NodeCount = 1) but a
node listing that reports two Ready nodes, the code computes
ReadyNodes = 2 > 1 = NodeCount: ReadyNodes is derived from the listing
output while NodeCount is the roster size. -/
theorem claim_c6_counterexample :
    ¬ ((CheckClusterHealth envTwoNodes ["m"] []).ReadyNodes ≤
        (CheckClusterHealth envTwoNodes ["m"] []).NodeCount) := by
  decide

/-- Claim C6 (amended): the ready-node count is bounded by the number
of node-status components produced by the node-readiness enumeration
(one per well-formed listing line); it is bounded by the roster-size
node count only when the listing reports at most that many nodes. -/
theorem claim_c6 (env : SSHEnv) (masters nodes : List String) :
    (CheckClusterHealth env masters nodes).ReadyNodes ≤
      (checkNodeStatus env masters).length := by
  exact List.length_filter_le _ _

/-- Claim C8: the kubelet liveness check maps every host of the full
roster (masters then workers) independently to exactly one status, so
a connection failure for one host yields a failing status for that
host and cannot affect any other host. -/
theorem claim_c8 :
    (∀ (env : SSHEnv) (masters nodes : List String),
        checkKubelet env masters nodes = (masters ++ nodes).map (kubeletStatus env))
      ∧ (∀ (env : SSHEnv) (masters nodes : List String),
          (checkKubelet env masters nodes).length = masters.length + nodes.length)
      ∧ ∀ (env : SSHEnv) (host : String), env.connOk host = false →
          (kubeletStatus env host).Healthy = false
            ∧ (kubeletStatus env host).Message = "Cannot connect" := by
  refine ⟨fun _ _ _ => rfl, fun env masters nodes => by
    simp [checkKubelet], fun env host h => ?_⟩
  constructor <;> simp [kubeletStatus, h]

/-- Claim C8 witness: in a roster of three hosts where only `down`
refuses connections, the check still yields three statuses and the one
for `down` is failing. -/
theorem claim_c8_witness :
    (checkKubelet envMixed ["m", "down"] ["w"]).length = 2 + 1
      ∧ ((kubeletStatus envMixed "down").Healthy = false
          ∧ (kubeletStatus envMixed "down").Message = "Cannot connect") :=
  ⟨claim_c8.2.1 envMixed ["m", "down"] ["w"],
    claim_c8.2.2 envMixed "down" (by decide)⟩

/-- Claim C9: a roster with fewer than two hosts makes the pairwise
network connectivity check return the empty result list. -/
theorem claim_c9 (env : SSHEnv) (hosts : List String)
    (h : hosts.length < 2) : CheckNetworkConnectivity env hosts = [] := by
  simp [CheckNetworkConnectivity, h]

/-- Claim C9 witness: the singleton roster. -/
theorem claim_c9_witness :
    (["solo"] : List String).length < 2
      ∧ CheckNetworkConnectivity envMixed ["solo"] = [] :=
  ⟨by decide, claim_c9 envMixed ["solo"] (by decide)⟩

/-- Claim C10: a node-listing line with fewer than two
whitespace-delimited fields is skipped: it yields no component, the
component list is that of the well-formed lines alone, and therefore
the ready-node count is unchanged by such lines. -/
theorem claim_c10 :
    (∀ line : List Char, (goFields line).length < 2 → parseNodeLine line = none)
      ∧ (∀ lines : List (List Char),
          lines.filterMap parseNodeLine =
            (lines.filter fun l => 2 ≤ (goFields l).length).filterMap parseNodeLine)
      ∧ ∀ lines : List (List Char),
          countReadyNodes (lines.filterMap parseNodeLine) =
            countReadyNodes
              ((lines.filter fun l => 2 ≤ (goFields l).length).filterMap parseNodeLine) := by
  have hdrop : ∀ lines : List (List Char),
      lines.filterMap parseNodeLine =
        (lines.filter fun l => 2 ≤ (goFields l).length).filterMap parseNodeLine := by
    intro lines
    induction lines with
    | nil => rfl
    | cons l t ih =>
      by_cases h : 2 ≤ (goFields l).length
      · simp only [List.filterMap_cons, List.filter_cons]
        rw [if_pos (by simpa using h), List.filterMap_cons, ih]
      · simp only [List.filterMap_cons, List.filter_cons,
          parseNodeLine_short l (by omega)]
        rw [if_neg (by simpa using h), ih]
  exact ⟨fun line h => parseNodeLine_short line h, hdrop,
    fun lines => by rw [hdrop]⟩

/-- Claim C10 witness: a one-field line is skipped. -/
theorem claim_c10_witness :
    (goFields "loneword".data).length < 2
      ∧ parseNodeLine "loneword".data = none :=
  ⟨by decide, claim_c10.1 "loneword".data (by decide)⟩

/-- Claim C7: the capacity check yields exactly one result per host,
and on a reachable host whose three probe commands succeed with a
parseable memory pattern, the first violated threshold — in the order
cores, memory, disk — produces the single failing result whose message
names the measured value and the minimum, skipping the remaining
comparisons; when all three measurements meet the minimums {2 cores,
2 GiB memory, 20 GiB disk} the single result passes. -/
theorem claim_c7 :
    (∀ (env : SSHEnv) (hosts : List String),
        (CheckSystemRequirements env hosts).length = hosts.length)
      ∧ ∀ (env : SSHEnv) (host cpuS memS diskS : String) (memDigits : List Char),
          env.connOk host = true →
          env.runCmd host "nproc" = some cpuS →
          env.runCmd host memCmd = some memS →
          env.runCmd host diskCmd = some diskS →
          findMemTotal memS.data = some memDigits →
          checkHostRequirements env host =
            (let cpu : Int := goAtoi (goTrimSpace cpuS.data)
             let memGB : Int := goAtoi memDigits / 1024 / 1024
             let diskGB : Int := goAtoi (goTrimSpace (goTrimSuffix diskS.data "G".data))
             if cpu < minCPU then
               { Name := sysReqName host, Passed := false,
                 Message := s!"Insufficient CPU cores: {cpu} (minimum: {minCPU})" }
             else if memGB < minMemoryGB then
               { Name := sysReqName host, Passed := false,
                 Message := s!"Insufficient memory: {memGB}GB (minimum: {minMemoryGB}GB)" }
             else if diskGB < minDiskGB then
               { Name := sysReqName host, Passed := false,
                 Message := s!"Insufficient disk space: {diskGB}GB (minimum: {minDiskGB}GB)" }
             else
               { Name := sysReqName host, Passed := true,
                 Message := "System requirements met" }) := by
  refine ⟨fun env hosts => by simp [CheckSystemRequirements], ?_⟩
  intro env host cpuS memS diskS memDigits hc h1 h2 h3 h4
  simp only [checkHostRequirements, cpuGate, memGate, diskGate, hc, h1, h2, h3, h4]
  by_cases hcpu : goAtoi (goTrimSpace cpuS.data) < minCPU <;>
    by_cases hmem : goAtoi memDigits / 1024 / 1024 < minMemoryGB <;>
      by_cases hdisk :
          goAtoi (goTrimSpace (goTrimSuffix diskS.data "G".data)) < minDiskGB <;>
        simp [hcpu, hmem, hdisk]

/-- Claim C7 witness: a reachable host measuring 1 core, 4 GiB memory,
21 GiB disk fails on the first threshold (cores) with the message
naming the measurement and the minimum. -/
theorem claim_c7_witness :
    envLowCPU.connOk "h" = true
      ∧ envLowCPU.runCmd "h" "nproc" = some "1"
      ∧ findMemTotal ("MemTotal: 4194304 kB").data = some "4194304".data
      ∧ checkHostRequirements envLowCPU "h" =
          { Name := sysReqName "h", Passed := false,
            Message := "Insufficient CPU cores: 1 (minimum: 2)" } :=
  ⟨rfl, by decide, by decide,
    (claim_c7.2 envLowCPU "h" "1" "MemTotal: 4194304 kB" "21G" "4194304".data
      rfl (by decide) (by decide) (by decide) (by decide)).trans (by decide)⟩

end Kubespray
